import Mathlib

/-!
# Verification of `src/components/WebGLCanvas.tsx`

Shallow embedding of the WebGL triangle component.  The component is
single-threaded and event-driven, so it is modelled as pure functions on an
explicit component state that additionally emit a trace of observable events:
WebGL API calls, console diagnostics, and listener (de)registration.

Numbers (JS `number`) are embedded as `ℚ`; the arithmetic the component
performs (division by the fixed canvas size, multiplication by 2,
subtraction) is modelled exactly.

The nondeterminism of the WebGL driver (context availability, shader create
and compile results, program create and link results) is captured by a
`GLEnv` record of booleans; every execution of the component is the run of
these functions at some `GLEnv`.
-/

namespace WebGLCanvas

/-- The two shader stages (`gl.VERTEX_SHADER` / `gl.FRAGMENT_SHADER`). -/
inductive Stage
  | vertex
  | fragment
deriving DecidableEq, Repr

/-- Draw mode constants used by the source (`gl.TRIANGLES` is the only one). -/
inductive DrawMode
  | triangles
deriving DecidableEq, Repr

/-- Attribute component types used by the source (`gl.FLOAT` only). -/
inductive CompType
  | float
deriving DecidableEq, Repr

/-- Buffer usage hints used by the source (`gl.STATIC_DRAW` only). -/
inductive BufferUsage
  | staticDraw
deriving DecidableEq, Repr

/-- The `console.error` diagnostics the source can emit. -/
inductive LogMsg
  | contextUnavailable
  | shaderCompileError (stage : Stage)
  | programLinkError
deriving DecidableEq, Repr

/-- Observable events of one execution: the WebGL calls the source issues
(deletion calls other than `deleteShader` do not occur anywhere in the
source, hence have no constructor), console diagnostics, and mousemove
listener registration / removal on the canvas. -/
inductive Event
  | glShaderSource (stage : Stage)
  | glCompileShader (stage : Stage)
  | glDeleteShader (stage : Stage)
  | glAttachShader (stage : Stage)
  | glLinkProgram
  | glBindBuffer
  | glBufferData (data : List ℚ) (usage : BufferUsage)
  | glClearColor (r g b a : ℚ)
  | glClear
  | glUseProgram
  | glVertexAttribPointer (size : ℕ) (compType : CompType) (normalized : Bool)
      (stride off : ℕ)
  | glEnableVertexAttribArray
  | glUniform2f (x y : ℚ)
  | glDrawArrays (mode : DrawMode) (first count : ℕ)
  | consoleError (msg : LogMsg)
  | addMouseMoveListener
  | removeMouseMoveListener
deriving DecidableEq, Repr

/-- Driver-side outcomes of the fallible WebGL calls the source checks. -/
structure GLEnv where
  glAvailable : Bool
  createShaderOk : Bool
  createProgramOk : Bool
  vsCompileOk : Bool
  fsCompileOk : Bool
  linkOk : Bool
deriving DecidableEq, Repr

/-- `COMPILE_STATUS` the driver reports for a given stage. -/
def compileOk (env : GLEnv) : Stage → Bool
  | Stage.vertex => env.vsCompileOk
  | Stage.fragment => env.fsCompileOk

/-- Embedding of `loadShader`: create a shader, upload its source, compile,
and on a failed compile log the diagnostic, delete the shader and return
null.  The returned handle is modelled by the stage tag. -/
def loadShader (env : GLEnv) (stage : Stage) : Option Stage × List Event :=
  if env.createShaderOk then
    let evs := [Event.glShaderSource stage, Event.glCompileShader stage]
    if compileOk env stage then
      (some stage, evs)
    else
      (none, evs ++ [Event.consoleError (LogMsg.shaderCompileError stage),
                     Event.glDeleteShader stage])
  else
    (none, [])

/-- Embedding of `initShaderProgram`: both `loadShader` calls run before the
null check, then attach, link, and check `LINK_STATUS`. -/
def initShaderProgram (env : GLEnv) : Option Unit × List Event :=
  let v := loadShader env Stage.vertex
  let f := loadShader env Stage.fragment
  let tr := v.2 ++ f.2
  match v.1, f.1 with
  | some _, some _ =>
    if env.createProgramOk then
      let tr2 := tr ++ [Event.glAttachShader Stage.vertex,
                        Event.glAttachShader Stage.fragment,
                        Event.glLinkProgram]
      if env.linkOk then
        (some (), tr2)
      else
        (none, tr2 ++ [Event.consoleError LogMsg.programLinkError])
    else
      (none, tr)
  | _, _ => (none, tr)

/-- The fixed triangle geometry uploaded by `initBuffers`:
top (0,1), bottom-left (-1,-1), bottom-right (1,-1). -/
def trianglePositions : List ℚ := [0, 1, -1, -1, 1, -1]

/-- Embedding of `initBuffers`: bind the position buffer and upload the fixed
geometry with `STATIC_DRAW` (buffer creation is unchecked in the source). -/
def initBuffers : List Event :=
  [Event.glBindBuffer,
   Event.glBufferData trianglePositions BufferUsage.staticDraw]

/-- Embedding of `drawScene` at a given top-vertex value: the exact WebGL
call sequence the source issues for one frame. -/
def drawScene (topVertex : ℚ × ℚ) : List Event :=
  [Event.glClearColor 0 0 0 1,
   Event.glClear,
   Event.glUseProgram,
   Event.glBindBuffer,
   Event.glVertexAttribPointer 2 CompType.float false 0 0,
   Event.glEnableVertexAttribArray,
   Event.glUniform2f topVertex.1 topVertex.2,
   Event.glDrawArrays DrawMode.triangles 0 3]

/-- Mutable component state: `topVertexRef.current` and whether the
mousemove listener is currently registered on the canvas. -/
structure CompState where
  topVertex : ℚ × ℚ
  listenerActive : Bool
deriving DecidableEq, Repr

/-- `useRef({ x: 0, y: 1 })`: the initial top-vertex value. -/
def initialTopVertex : ℚ × ℚ := (0, 1)

/-- Embedding of the mount effect (`useEffect` body): acquire the context,
build the shader program, upload the buffer, draw once with the current
(initial) top vertex, register the mousemove listener; abort on any checked
failure.  Returns the state after the effect and the emitted trace. -/
def mount (env : GLEnv) : CompState × List Event :=
  let s0 : CompState := ⟨initialTopVertex, false⟩
  if env.glAvailable then
    match initShaderProgram env with
    | (some _, tr) =>
        (⟨initialTopVertex, true⟩,
         tr ++ initBuffers ++ drawScene initialTopVertex
            ++ [Event.addMouseMoveListener])
    | (none, tr) => (s0, tr)
  else
    (s0, [Event.consoleError LogMsg.contextUnavailable])

/-- `((event.clientX - rect.left) / canvas.width) * 2 - 1` with `px` the
canvas-relative pixel offset and `W = canvas.width`. -/
def ndcX (px W : ℚ) : ℚ := px / W * 2 - 1

/-- `1 - ((event.clientY - rect.top) / canvas.height) * 2` with `py` the
canvas-relative pixel offset and `H = canvas.height`. -/
def ndcY (py H : ℚ) : ℚ := 1 - py / H * 2

/-- Embedding of `handleMouseMove`: compute the new normalized coordinates,
overwrite `topVertexRef.current`, and synchronously call `drawScene` with
the new value. -/
def handleMouseMove (W H px py : ℚ) (s : CompState) : CompState × List Event :=
  let x := ndcX px W
  let y := ndcY py H
  ({ s with topVertex := (x, y) }, drawScene (x, y))

/-- Delivery of a mousemove event by the host: the handler runs only while
it is registered on the canvas. -/
def dispatchMouseMove (W H px py : ℚ) (s : CompState) : CompState × List Event :=
  if s.listenerActive then handleMouseMove W H px py s else (s, [])

/-- Embedding of the effect cleanup: `removeEventListener` on unmount. -/
def unmount (s : CompState) : CompState × List Event :=
  ({ s with listenerActive := false }, [Event.removeMouseMoveListener])

/-- Deliver a sequence of mousemove events, threading the state and
concatenating the traces. -/
def runMoves (W H : ℚ) (moves : List (ℚ × ℚ)) (s : CompState) :
    CompState × List Event :=
  match moves with
  | [] => (s, [])
  | (px, py) :: rest =>
    let r1 := dispatchMouseMove W H px py s
    let r2 := runMoves W H rest r1.1
    (r2.1, r1.2 ++ r2.2)

/-- Semantics of the vertex shader source `vsSource`: if the input vertex's
Y component equals exactly 1.0, output `(uTopVertex, 0, 1)`, else pass the
input position through unchanged. -/
def vertexMain (pos : ℚ × ℚ × ℚ × ℚ) (uTop : ℚ × ℚ) : ℚ × ℚ × ℚ × ℚ :=
  if pos.2.1 = 1 then (uTop.1, uTop.2, 0, 1) else pos

/-- Semantics of the fragment shader source `fsSource`: constant opaque red
for every covered pixel. -/
def fragmentMain : ℚ × ℚ × ℚ × ℚ := (1, 0, 0, 1)

/-- Does an event draw geometry (`gl.drawArrays`)? -/
def isDraw : Event → Bool
  | Event.glDrawArrays _ _ _ => true
  | _ => false

/-- Does an event write buffer contents (`gl.bufferData`)? -/
def isBufferData : Event → Bool
  | Event.glBufferData _ _ => true
  | _ => false

/-- Is an event a `console.error` diagnostic? -/
def isConsoleError : Event → Bool
  | Event.consoleError _ => true
  | _ => false

/-- Is an event a `gl.deleteShader` call? -/
def isDeleteShader : Event → Bool
  | Event.glDeleteShader _ => true
  | _ => false

/-- Is an event the mousemove listener registration? -/
def isAddListener : Event → Bool
  | Event.addMouseMoveListener => true
  | _ => false

/-- Is an event a `gl.uniform2f` call? -/
def isUniform2f : Event → Bool
  | Event.glUniform2f _ _ => true
  | _ => false


/-! ## Helper lemmas -/

theorem drawScene_no_bufferData (p : ℚ × ℚ) :
    (drawScene p).countP isBufferData = 0 := rfl

theorem drawScene_no_deleteShader (p : ℚ × ℚ) :
    (drawScene p).countP isDeleteShader = 0 := rfl

theorem dispatch_trace_cases (W H px py : ℚ) (s : CompState) :
    (dispatchMouseMove W H px py s).2 = drawScene (ndcX px W, ndcY py H) ∨
    (dispatchMouseMove W H px py s).2 = [] := by
  unfold dispatchMouseMove handleMouseMove
  by_cases h : s.listenerActive = true
  · simp [h]
  · simp [h]

theorem dispatch_listenerActive (W H px py : ℚ) (s : CompState) :
    (dispatchMouseMove W H px py s).1.listenerActive = s.listenerActive := by
  unfold dispatchMouseMove handleMouseMove
  by_cases h : s.listenerActive = true
  · simp [h]
  · simp [h]

theorem runMoves_no_bufferData (W H : ℚ) (moves : List (ℚ × ℚ)) (s : CompState) :
    (runMoves W H moves s).2.countP isBufferData = 0 := by
  induction moves generalizing s with
  | nil => rfl
  | cons m rest ih =>
    obtain ⟨px, py⟩ := m
    show ((dispatchMouseMove W H px py s).2
        ++ (runMoves W H rest (dispatchMouseMove W H px py s).1).2).countP
          isBufferData = 0
    rw [List.countP_append, ih]
    rcases dispatch_trace_cases W H px py s with h | h <;>
      rw [h] <;> simp [drawScene_no_bufferData]

theorem runMoves_no_deleteShader (W H : ℚ) (moves : List (ℚ × ℚ)) (s : CompState) :
    (runMoves W H moves s).2.countP isDeleteShader = 0 := by
  induction moves generalizing s with
  | nil => rfl
  | cons m rest ih =>
    obtain ⟨px, py⟩ := m
    show ((dispatchMouseMove W H px py s).2
        ++ (runMoves W H rest (dispatchMouseMove W H px py s).1).2).countP
          isDeleteShader = 0
    rw [List.countP_append, ih]
    rcases dispatch_trace_cases W H px py s with h | h <;>
      rw [h] <;> simp [drawScene_no_deleteShader]

theorem runMoves_listenerActive (W H : ℚ) (moves : List (ℚ × ℚ)) (s : CompState) :
    (runMoves W H moves s).1.listenerActive = s.listenerActive := by
  induction moves generalizing s with
  | nil => rfl
  | cons m rest ih =>
    obtain ⟨px, py⟩ := m
    show (runMoves W H rest (dispatchMouseMove W H px py s).1).1.listenerActive
        = s.listenerActive
    rw [ih, dispatch_listenerActive]

/-! ## Claims -/

/-- C1: for every pointer-move event with canvas-relative pixel offsets
(px, py) over a canvas of pixel width W and height H, the handler computes
x = (px / W) * 2 - 1 and y = 1 - (py / H) * 2, overwrites the top-vertex
state with (x, y), and then synchronously invokes the frame renderer with
exactly that new value (the rest of the state is untouched). -/
theorem C1_mousemove_updates_state_and_redraws (W H px py : ℚ) (s : CompState) :
    (handleMouseMove W H px py s).1.topVertex
      = (px / W * 2 - 1, 1 - py / H * 2) ∧
    (handleMouseMove W H px py s).1.listenerActive = s.listenerActive ∧
    (handleMouseMove W H px py s).2
      = drawScene ((handleMouseMove W H px py s).1.topVertex) :=
  ⟨rfl, rfl, rfl⟩

/-- C2: for every surface size (W, H) with W > 0 and H > 0 and every pixel
offset (px, py) with 0 ≤ px ≤ W and 0 ≤ py ≤ H, the coordinate transform
produces (x, y) in [-1,1] × [-1,1]; moreover offset (0,0) maps to (-1,1),
offset (W,H) maps to (1,-1), offset (W/2,H/2) maps to (0,0), and offset
(W/2,0) maps to (0,1). -/
theorem C2_transform_bounds_and_anchor_points (W H px py : ℚ)
    (hW : 0 < W) (hH : 0 < H) (hpx0 : 0 ≤ px) (hpxW : px ≤ W)
    (hpy0 : 0 ≤ py) (hpyH : py ≤ H) :
    (-1 ≤ ndcX px W ∧ ndcX px W ≤ 1 ∧ -1 ≤ ndcY py H ∧ ndcY py H ≤ 1) ∧
    (ndcX 0 W = -1 ∧ ndcY 0 H = 1) ∧
    (ndcX W W = 1 ∧ ndcY H H = -1) ∧
    (ndcX (W / 2) W = 0 ∧ ndcY (H / 2) H = 0) ∧
    (ndcX (W / 2) W = 0 ∧ ndcY 0 H = 1) := by
  have hx0 : 0 ≤ px / W := div_nonneg hpx0 hW.le
  have hx1 : px / W ≤ 1 := (div_le_one hW).mpr hpxW
  have hy0 : 0 ≤ py / H := div_nonneg hpy0 hH.le
  have hy1 : py / H ≤ 1 := (div_le_one hH).mpr hpyH
  have hWne : W ≠ 0 := ne_of_gt hW
  have hHne : H ≠ 0 := ne_of_gt hH
  refine ⟨⟨?_, ?_, ?_, ?_⟩, ⟨?_, ?_⟩, ⟨?_, ?_⟩, ⟨?_, ?_⟩, ⟨?_, ?_⟩⟩ <;>
    simp only [ndcX, ndcY]
  · linarith
  · linarith
  · linarith
  · linarith
  · norm_num
  · norm_num
  · rw [div_self hWne]; norm_num
  · rw [div_self hHne]; norm_num
  · field_simp; ring
  · field_simp; ring
  · field_simp; ring
  · norm_num

/-- C2 witness: the theorem applied at the concrete canvas size 640 × 480
and the center offset (320, 240). -/
theorem C2_transform_bounds_witness :
    (-1 ≤ ndcX 320 640 ∧ ndcX 320 640 ≤ 1 ∧
      -1 ≤ ndcY 240 480 ∧ ndcY 240 480 ≤ 1) ∧
    (ndcX 0 640 = -1 ∧ ndcY 0 480 = 1) ∧
    (ndcX 640 640 = 1 ∧ ndcY 480 480 = -1) ∧
    (ndcX (640 / 2) 640 = 0 ∧ ndcY (480 / 2) 480 = 0) ∧
    (ndcX (640 / 2) 640 = 0 ∧ ndcY 0 480 = 1) :=
  C2_transform_bounds_and_anchor_points 640 480 320 240 (by norm_num)
    (by norm_num) (by norm_num) (by norm_num) (by norm_num) (by norm_num)

/-- C7: the vertex stage outputs (ux, uy, 0, 1) when the input Y component
equals exactly 1.0 and passes the input position through unchanged
otherwise; the fragment stage outputs constant opaque red (1, 0, 0, 1). -/
theorem C7_shader_stage_semantics (x y z w ux uy : ℚ) :
    (y = 1 → vertexMain (x, y, z, w) (ux, uy) = (ux, uy, 0, 1)) ∧
    (y ≠ 1 → vertexMain (x, y, z, w) (ux, uy) = (x, y, z, w)) ∧
    fragmentMain = (1, 0, 0, 1) := by
  refine ⟨fun h => ?_, fun h => ?_, rfl⟩
  · simp [vertexMain, h]
  · simp [vertexMain, h]

/-- C7 witness: both branches of the vertex stage evaluated at concrete
inputs with Y = 1 and Y = 0. -/
theorem C7_shader_stage_semantics_witness :
    vertexMain (2, 1, 3, 4) (5, 6) = (5, 6, 0, 1) ∧
    vertexMain (2, 0, 3, 4) (5, 6) = (2, 0, 3, 4) :=
  ⟨(C7_shader_stage_semantics 2 1 3 4 5 6).1 rfl,
   (C7_shader_stage_semantics 2 0 3 4 5 6).2.1 (by norm_num)⟩

/-- C8: every invocation of the frame renderer with top-vertex (x, y)
issues exactly this command sequence, in this order: set the clear color
to opaque black and clear, activate the program, bind the vertex buffer,
describe the attribute as 2 float components per vertex, not normalized,
stride 0 and offset 0, enable the attribute, set the uniform to (x, y),
and draw triangles with 3 vertices starting at offset 0. -/
theorem C8_drawScene_command_sequence (x y : ℚ) :
    drawScene (x, y) =
      [Event.glClearColor 0 0 0 1,
       Event.glClear,
       Event.glUseProgram,
       Event.glBindBuffer,
       Event.glVertexAttribPointer 2 CompType.float false 0 0,
       Event.glEnableVertexAttribArray,
       Event.glUniform2f x y,
       Event.glDrawArrays DrawMode.triangles 0 3] := rfl

/-- C9: unmounting removes the pointer-move listener registered at mount,
so a pointer-move event delivered after unmount neither updates the
top-vertex state nor triggers a redraw. -/
theorem C9_unmount_removes_listener (s : CompState) (W H px py : ℚ) :
    (unmount s).2 = [Event.removeMouseMoveListener] ∧
    (unmount s).1.listenerActive = false ∧
    dispatchMouseMove W H px py (unmount s).1 = ((unmount s).1, []) :=
  ⟨rfl, rfl, rfl⟩

/-- C3: whenever context acquisition fails, a shader stage fails to
compile, or program linking fails (shader/program creation itself
succeeding, as the source only checks those for null), the mount effect
logs a diagnostic and aborts: no draw is issued, no mousemove listener is
registered, and the embedding returns normally (no exception is modelled
because the source throws none). -/
theorem C3_init_failure_logs_and_aborts (env : GLEnv)
    (hcs : env.createShaderOk = true) (hcp : env.createProgramOk = true)
    (hfail : env.glAvailable = false ∨ env.vsCompileOk = false ∨
             env.fsCompileOk = false ∨ env.linkOk = false) :
    (mount env).2.any isConsoleError = true ∧
    (mount env).2.any isDraw = false ∧
    Event.addMouseMoveListener ∉ (mount env).2 ∧
    (mount env).1.listenerActive = false := by
  obtain ⟨a, cs, cp, v, f, l⟩ := env
  rcases a <;> rcases cs <;> rcases cp <;> rcases v <;> rcases f <;> rcases l <;>
    first
      | exact absurd hcs (by decide)
      | exact absurd hcp (by decide)
      | exact absurd hfail (by decide)
      | decide

/-- C3 witness: the theorem applied to the run whose vertex-stage
compilation fails. -/
theorem C3_init_failure_logs_and_aborts_witness :
    (mount ⟨true, true, true, false, true, true⟩).2.any isConsoleError = true ∧
    (mount ⟨true, true, true, false, true, true⟩).2.any isDraw = false ∧
    Event.addMouseMoveListener ∉ (mount ⟨true, true, true, false, true, true⟩).2 ∧
    (mount ⟨true, true, true, false, true, true⟩).1.listenerActive = false :=
  C3_init_failure_logs_and_aborts ⟨true, true, true, false, true, true⟩
    rfl rfl (Or.inr (Or.inl rfl))

/-- C4: on a successful mount the buffer is written exactly once, with the
fixed triangle top (0,1), bottom-left (-1,-1), bottom-right (1,-1); no
sequence of pointer-move events ever writes buffer contents, and pointer
events leave every state component other than the top vertex unchanged. -/
theorem C4_geometry_fixed_buffer_written_once (env : GLEnv) (W H : ℚ)
    (moves : List (ℚ × ℚ)) (s : CompState)
    (ha : env.glAvailable = true) (hcs : env.createShaderOk = true)
    (hcp : env.createProgramOk = true) (hv : env.vsCompileOk = true)
    (hf : env.fsCompileOk = true) (hl : env.linkOk = true) :
    (mount env).2.countP isBufferData = 1 ∧
    Event.glBufferData trianglePositions BufferUsage.staticDraw ∈ (mount env).2 ∧
    trianglePositions = [0, 1, -1, -1, 1, -1] ∧
    (runMoves W H moves s).2.countP isBufferData = 0 ∧
    (runMoves W H moves s).1.listenerActive = s.listenerActive := by
  obtain ⟨a, cs, cp, v, f, l⟩ := env
  rcases a <;> rcases cs <;> rcases cp <;> rcases v <;> rcases f <;> rcases l <;>
    first
      | exact absurd ha (by decide)
      | exact absurd hcs (by decide)
      | exact absurd hcp (by decide)
      | exact absurd hv (by decide)
      | exact absurd hf (by decide)
      | exact absurd hl (by decide)
      | exact ⟨by decide, by decide, by decide,
               runMoves_no_bufferData W H moves s,
               runMoves_listenerActive W H moves s⟩

/-- C4 witness: the theorem applied to the fully successful run, canvas
size 640 × 480, one pointer move at offset (100, 200), live listener. -/
theorem C4_geometry_fixed_witness :
    (mount ⟨true, true, true, true, true, true⟩).2.countP isBufferData = 1 ∧
    Event.glBufferData trianglePositions BufferUsage.staticDraw
      ∈ (mount ⟨true, true, true, true, true, true⟩).2 ∧
    trianglePositions = [0, 1, -1, -1, 1, -1] ∧
    (runMoves 640 480 [(100, 200)] ⟨(0, 1), true⟩).2.countP isBufferData = 0 ∧
    (runMoves 640 480 [(100, 200)] ⟨(0, 1), true⟩).1.listenerActive = true :=
  C4_geometry_fixed_buffer_written_once ⟨true, true, true, true, true, true⟩
    640 480 [(100, 200)] ⟨(0, 1), true⟩ rfl rfl rfl rfl rfl rfl

/-- C5: on a successful mount, exactly one draw is issued, it sets the
top-vertex uniform exactly once and to exactly (0, 1), and it happens after
the buffer upload and before the mousemove listener registration. -/
theorem C5_initial_draw_at_default_vertex (env : GLEnv)
    (ha : env.glAvailable = true) (hcs : env.createShaderOk = true)
    (hcp : env.createProgramOk = true) (hv : env.vsCompileOk = true)
    (hf : env.fsCompileOk = true) (hl : env.linkOk = true) :
    (mount env).2.countP isDraw = 1 ∧
    (mount env).2.countP isUniform2f = 1 ∧
    Event.glUniform2f 0 1 ∈ (mount env).2 ∧
    (mount env).2.findIdx isBufferData < (mount env).2.findIdx isDraw ∧
    (mount env).2.findIdx isUniform2f < (mount env).2.findIdx isDraw ∧
    (mount env).2.findIdx isDraw < (mount env).2.findIdx isAddListener ∧
    Event.addMouseMoveListener ∈ (mount env).2 := by
  obtain ⟨a, cs, cp, v, f, l⟩ := env
  rcases a <;> rcases cs <;> rcases cp <;> rcases v <;> rcases f <;> rcases l <;>
    first
      | exact absurd ha (by decide)
      | exact absurd hcs (by decide)
      | exact absurd hcp (by decide)
      | exact absurd hv (by decide)
      | exact absurd hf (by decide)
      | exact absurd hl (by decide)
      | decide

/-- C5 witness: the theorem applied to the fully successful run. -/
theorem C5_initial_draw_witness :
    (mount ⟨true, true, true, true, true, true⟩).2.countP isDraw = 1 ∧
    (mount ⟨true, true, true, true, true, true⟩).2.countP isUniform2f = 1 ∧
    Event.glUniform2f 0 1 ∈ (mount ⟨true, true, true, true, true, true⟩).2 ∧
    (mount ⟨true, true, true, true, true, true⟩).2.findIdx isBufferData
      < (mount ⟨true, true, true, true, true, true⟩).2.findIdx isDraw ∧
    (mount ⟨true, true, true, true, true, true⟩).2.findIdx isUniform2f
      < (mount ⟨true, true, true, true, true, true⟩).2.findIdx isDraw ∧
    (mount ⟨true, true, true, true, true, true⟩).2.findIdx isDraw
      < (mount ⟨true, true, true, true, true, true⟩).2.findIdx isAddListener ∧
    Event.addMouseMoveListener ∈ (mount ⟨true, true, true, true, true, true⟩).2 :=
  C5_initial_draw_at_default_vertex ⟨true, true, true, true, true, true⟩
    rfl rfl rfl rfl rfl rfl

/-- C6 counterexample: in the execution whose vertex-stage compilation
fails, the source explicitly releases the shader handle through the
graphics API deletion call (`gl.deleteShader` in `loadShader`), so the
claim that no handle is ever explicitly released is false. -/
theorem C6_counterexample_deleteShader_on_compile_failure :
    Event.glDeleteShader Stage.vertex
      ∈ (mount ⟨true, true, true, false, true, true⟩).2 := by
  decide

/-- C6 amended: program and buffer handles are never explicitly released
(the source contains no such deletion call, so `Event` has no constructor
for one), and a shader handle is explicitly released only when its
compilation fails: in every execution in which both stages compile, and
under every pointer-move sequence and at unmount, no deletion call ever
occurs. -/
theorem C6_no_deletion_when_compiles_succeed (env : GLEnv) (W H : ℚ)
    (moves : List (ℚ × ℚ)) (s : CompState)
    (hv : env.vsCompileOk = true) (hf : env.fsCompileOk = true) :
    (mount env).2.countP isDeleteShader = 0 ∧
    (runMoves W H moves s).2.countP isDeleteShader = 0 ∧
    (unmount s).2.countP isDeleteShader = 0 := by
  obtain ⟨a, cs, cp, v, f, l⟩ := env
  rcases a <;> rcases cs <;> rcases cp <;> rcases v <;> rcases f <;> rcases l <;>
    first
      | exact absurd hv (by decide)
      | exact absurd hf (by decide)
      | exact ⟨by decide, runMoves_no_deleteShader W H moves s, rfl⟩

/-- C6 witness: the amended theorem applied to the fully successful run
with one pointer move. -/
theorem C6_no_deletion_witness :
    (mount ⟨true, true, true, true, true, true⟩).2.countP isDeleteShader = 0 ∧
    (runMoves 640 480 [(100, 200)] ⟨(0, 1), true⟩).2.countP isDeleteShader = 0 ∧
    (unmount ⟨(0, 1), true⟩).2.countP isDeleteShader = 0 :=
  C6_no_deletion_when_compiles_succeed ⟨true, true, true, true, true, true⟩
    640 480 [(100, 200)] ⟨(0, 1), true⟩ rfl rfl

/-- C10: in `initShaderProgram` both `loadShader` calls run before the null
check, so the fragment stage is always compiled even when the vertex stage
already failed; when both stages are invalid, each stage logs its own
diagnostic and initialization returns null. -/
theorem C10_both_stages_compiled_before_null_check (env : GLEnv)
    (hcs : env.createShaderOk = true) :
    Event.glCompileShader Stage.vertex ∈ (initShaderProgram env).2 ∧
    Event.glCompileShader Stage.fragment ∈ (initShaderProgram env).2 ∧
    (env.vsCompileOk = false → env.fsCompileOk = false →
      (initShaderProgram env).2.countP isConsoleError = 2 ∧
      Event.consoleError (LogMsg.shaderCompileError Stage.vertex)
        ∈ (initShaderProgram env).2 ∧
      Event.consoleError (LogMsg.shaderCompileError Stage.fragment)
        ∈ (initShaderProgram env).2 ∧
      (initShaderProgram env).1 = none) := by
  obtain ⟨a, cs, cp, v, f, l⟩ := env
  rcases a <;> rcases cs <;> rcases cp <;> rcases v <;> rcases f <;> rcases l <;>
    first
      | exact absurd hcs (by decide)
      | decide

/-- C10 witness: the theorem applied to the run in which both stages fail
to compile. -/
theorem C10_both_stages_compiled_witness :
    Event.glCompileShader Stage.vertex
      ∈ (initShaderProgram ⟨true, true, true, false, false, true⟩).2 ∧
    Event.glCompileShader Stage.fragment
      ∈ (initShaderProgram ⟨true, true, true, false, false, true⟩).2 ∧
    ((⟨true, true, true, false, false, true⟩ : GLEnv).vsCompileOk = false →
      (⟨true, true, true, false, false, true⟩ : GLEnv).fsCompileOk = false →
      (initShaderProgram ⟨true, true, true, false, false, true⟩).2.countP
        isConsoleError = 2 ∧
      Event.consoleError (LogMsg.shaderCompileError Stage.vertex)
        ∈ (initShaderProgram ⟨true, true, true, false, false, true⟩).2 ∧
      Event.consoleError (LogMsg.shaderCompileError Stage.fragment)
        ∈ (initShaderProgram ⟨true, true, true, false, false, true⟩).2 ∧
      (initShaderProgram ⟨true, true, true, false, false, true⟩).1 = none) :=
  C10_both_stages_compiled_before_null_check
    ⟨true, true, true, false, false, true⟩ rfl

end WebGLCanvas
